import Mathlib

/-!
Verification of the first-name statistics pipeline (src/main.py).

The program loads two yearly CSV files into pandas DataFrames, validates and
renames the columns, decodes the numeric sex field, concatenates the years,
prints top-N name rankings and exports the merged and grouped tables.

The embedding below models a DataFrame as a header of column names plus rows
of cells, with the CSV reading and writing modelled at the character level,
and the aggregations (`groupby("Prenom")["Nombre"].sum().nlargest(n)`)
modelled as list operations.
-/

/-- A pandas cell value: an integer, a string, or NaN (missing). -/
inductive Cell where
  | int (i : Int)
  | str (s : String)
  | na
deriving DecidableEq

/-- An in-memory DataFrame: a header of column names and rows of cells. -/
structure Frame where
  header : List String
  rows : List (List Cell)
deriving DecidableEq

/-- Failure kinds that `load_csv_file` logs before calling `sys.exit(1)`
(src/main.py lines 81-92): pandas `EmptyDataError`, `ParserError`, and the
`ValueError` raised at line 70 for missing required columns. -/
inductive LoadError where
  | emptyData
  | parseError
  | schemaError (missing : List String)
deriving DecidableEq

/-- One application of `df['Sexe'].map({1: 'M', 2: 'F'})` (src/main.py
line 76): the dictionary keys are the integers 1 and 2, and any cell that is
not a key becomes NaN; no error is ever raised. -/
def mapSexCell : Cell → Cell
  | .int i => if i = 1 then .str "M" else if i = 2 then .str "F" else .na
  | _ => .na

/-- The `required_columns` dictionary of src/main.py lines 56-60, with the
source name first and the canonical name second, in insertion order. -/
def required_columns : List (String × String) :=
  [("sexe", "Sexe"), ("prenom", "Prenom"), ("nombre", "Nombre")]

/-- The `missing_columns` list built at src/main.py lines 63-66: every
required source column absent from the header, in dictionary order. -/
def missing_columns (header : List String) : List String :=
  (required_columns.map Prod.fst).filter (fun c => !(header.contains c))

/-- The effect of `df.rename(columns=required_columns)` (src/main.py
line 73) on one column name: the three source names are replaced by their
canonical forms, every other column name is kept. -/
def renameCol (c : String) : String :=
  if c = "sexe" then "Sexe"
  else if c = "prenom" then "Prenom"
  else if c = "nombre" then "Nombre"
  else c

/-- Apply `f` to the cell at index `i` of a row, keeping the other cells. -/
def applyAt (i : Nat) (f : Cell → Cell) : List Cell → List Cell
  | [] => []
  | c :: cs =>
    match i with
    | 0 => f c :: cs
    | j + 1 => c :: applyAt j f cs

/-- The post-parse part of `load_csv_file` (src/main.py lines 56-79):
check the required source columns, raising `ValueError` with the list of
every missing one (lines 62-70); otherwise rename the columns (line 73) and
map the `Sexe` column through `{1: 'M', 2: 'F'}` (line 76). -/
def loadTransform (df : Frame) : Except LoadError Frame :=
  let missing := missing_columns df.header
  if missing.isEmpty then
    let header := df.header.map renameCol
    let i := header.indexOf "Sexe"
    Except.ok ⟨header, df.rows.map (applyAt i mapSexCell)⟩
  else Except.error (LoadError.schemaError missing)

/-- Split a line on a separator character: the field list it denotes.
This models the CSV tokenizer used by `read_csv`. -/
def splitOnChar (sep : Char) : List Char → List (List Char)
  | [] => [[]]
  | c :: cs =>
    if c = sep then [] :: splitOnChar sep cs
    else (c :: (splitOnChar sep cs).headD []) :: (splitOnChar sep cs).tail

/-- Join fields with a separator character: the line a CSV writer emits. -/
def joinSep (sep : Char) : List (List Char) → List Char
  | [] => []
  | [f] => f
  | f :: fs => f ++ sep :: joinSep sep fs

/-- How `to_csv` renders one cell: NaN as the empty field, integers in
decimal, strings verbatim. -/
def cellRender : Cell → List Char
  | .int i => (toString i).toList
  | .str s => s.toList
  | .na => []

/-- The file written by `df.to_csv(path, sep=";", encoding="utf-8",
index=False)` (src/main.py lines 126 and 156): the header row followed by
one line per record, semicolon separated, without an index column. -/
def exportLines (f : Frame) : List (List Char) :=
  joinSep ';' (f.header.map String.toList) ::
    f.rows.map (fun row => joinSep ';' (row.map cellRender))

/-- Value of a digit character. -/
def digitVal (c : Char) : Nat := c.toNat - 48

/-- Numeric value of a list of digit characters. -/
def natOfDigits (cs : List Char) : Nat :=
  cs.foldl (fun acc c => 10 * acc + digitVal c) 0

/-- Modelled from pandas `read_csv` value inference: an empty field is NaN,
a field consisting of digits (with an optional leading minus sign) is an
integer, and anything else stays a string. -/
def parseField (cs : List Char) : Cell :=
  match cs with
  | [] => .na
  | '-' :: rest =>
    if !rest.isEmpty && rest.all Char.isDigit then .int (-(natOfDigits rest : Int))
    else .str (String.mk cs)
  | _ =>
    if cs.all Char.isDigit then .int (natOfDigits cs)
    else .str (String.mk cs)

/-- Pad a short row with NaN cells up to the header width, as `read_csv`
fills missing trailing fields. -/
def padTo (n : Nat) (row : List Cell) : List Cell :=
  row ++ List.replicate (n - row.length) Cell.na

/-- Modelled from `pd.read_csv(filename, sep=',', encoding=encoding)` as
called at src/main.py lines 40 and 45 — both parse strategies use the comma
separator, so they coincide in this model: an empty file raises
`EmptyDataError`; the first line is the header; a data row with more fields
than the header raises `ParserError`; otherwise each field is inferred to a
cell value and short rows are padded with NaN. -/
def parseCSV (lines : List (List Char)) : Except LoadError Frame :=
  match lines with
  | [] => Except.error LoadError.emptyData
  | h :: rest =>
    let header := (splitOnChar ',' h).map String.mk
    let rowFields := rest.map (splitOnChar ',')
    if rowFields.any (fun r => header.length < r.length) then
      Except.error LoadError.parseError
    else
      Except.ok ⟨header, rowFields.map (fun r => padTo header.length (r.map parseField))⟩

/-- `load_csv_file` applied to the lines of an existing file: parse with the
comma separator (src/main.py lines 38-48), then validate and transform
(lines 56-79). An error models the logged failure before `sys.exit(1)`. -/
def loadFromLines (lines : List (List Char)) : Except LoadError Frame :=
  match parseCSV lines with
  | .ok df => loadTransform df
  | .error e => Except.error e

section Aggregation

variable {α : Type} [DecidableEq α]

/-- The summed count of one group: what `sum()` computes for key `k` in
`df.groupby(key)[val].sum()` (src/main.py lines 104, 139, 140, 155). -/
def sumCounts (l : List (α × Int)) (k : α) : Int :=
  ((l.filter (fun p => decide (p.1 = k))).map Prod.snd).sum

/-- The distinct group keys of `df.groupby(key)`, in order of first
appearance (they are then sorted by the groupby's default key sort). -/
def groupKeys (l : List (α × Int)) : List α :=
  (l.map Prod.fst).dedup

/-- `df.groupby(key)[val].sum()` as a list of (key, total) pairs, keys
sorted by `kr` as groupby's default `sort=True` sorts the group keys. -/
def groupSumPairs (kr : α → α → Prop) [DecidableRel kr] (l : List (α × Int)) :
    List (α × Int) :=
  (List.insertionSort kr (groupKeys l)).map (fun k => (k, sumCounts l k))

/-- `Series.nlargest(n)`: the `n` largest entries by value, in descending
value order, ties kept in series order (`keep='first'`). -/
def nlargest (n : Nat) (s : List (α × Int)) : List (α × Int) :=
  (List.insertionSort (fun a b => b.2 ≤ a.2) s).take n

/-- `df.groupby(key)[val].sum().nlargest(n)` (src/main.py line 104). -/
def topNPairs (kr : α → α → Prop) [DecidableRel kr] (l : List (α × Int))
    (n : Nat) : List (α × Int) :=
  nlargest n (groupSumPairs kr l)

end Aggregation

/-- One Record of the data model: a (Sex, Name, Count) observation as it sits
in a loaded dataset; the sex is `none` when the source code was unmapped. -/
structure Record where
  sexe : Option String
  prenom : String
  nombre : Int
deriving DecidableEq

/-- The (Prenom, Nombre) projection of a dataset, which is what the groupby
aggregations consume. -/
def toPairs (d : List Record) : List (String × Int) :=
  d.map (fun r => (r.prenom, r.nombre))

/-- `groupSum` of the data model: the summed Count of one Name over the
whole dataset (`df.groupby("Prenom")["Nombre"].sum()` at that name). -/
def groupSum (d : List Record) (nm : String) : Int :=
  sumCounts (toPairs d) nm

/-- The distinct names occurring in a dataset. -/
def distinctNames (d : List Record) : List String :=
  groupKeys (toPairs d)

/-- `topN` of the data model:
`df.groupby("Prenom")["Nombre"].sum().nlargest(n)` (src/main.py line 104). -/
def topN (d : List Record) (n : Nat) : List (String × Int) :=
  topNPairs (fun a b : String => a ≤ b) (toPairs d) n

/-- A total order on cells used for the groupby key sort in the frame-level
aggregation; no claim depends on the relative order it induces. -/
def cellLe : Cell → Cell → Bool
  | .na, _ => true
  | _, .na => false
  | .int a, .int b => decide (a ≤ b)
  | .int _, .str _ => true
  | .str _, .int _ => false
  | .str a, .str b => decide (a ≤ b)

/-- Whether a cell is numeric data for pandas summation purposes. -/
def isIntOrNa : Cell → Bool
  | .int _ => true
  | .na => true
  | .str _ => false

/-- Numeric value of a cell under summation: `sum()` skips NaN. -/
def cellInt : Cell → Int
  | .int i => i
  | _ => 0

/-- Exceptions pandas can raise inside the try block of `process_top_names`
(src/main.py line 104): `KeyError` for a missing column, `TypeError` from
`nlargest` on non-numeric data. -/
inductive PdError where
  | keyError
  | typeError
deriving DecidableEq

/-- The body of the try block of `process_top_names` (src/main.py line 104):
`df.groupby("Prenom")["Nombre"].sum().nlargest(top_n)`. Raises KeyError when
a used column is absent, drops rows with a NaN group key (groupby default
`dropna=True`), and raises TypeError when the summed column holds
non-numeric data. -/
def frameTopN (f : Frame) (n : Nat) : Except PdError (List (Cell × Int)) :=
  match f.header.indexOf? "Prenom", f.header.indexOf? "Nombre" with
  | some pi, some ni =>
    let pairs := f.rows.map (fun row => (row.getD pi Cell.na, row.getD ni Cell.na))
    let kept := pairs.filter (fun p => decide (p.1 ≠ Cell.na))
    if kept.all (fun p => isIntOrNa p.2) then
      Except.ok (topNPairs (fun a b => cellLe a b = true)
        (kept.map (fun p => (p.1, cellInt p.2))) n)
    else Except.error PdError.typeError
  | _, _ => Except.error PdError.keyError

/-- `process_top_names` (src/main.py lines 94-113): the whole computation is
wrapped in try/except; on any exception the error is logged and an empty
Series is returned (line 113), so nothing propagates to the caller. -/
def process_top_names (f : Frame) (n : Nat) : List (Cell × Int) :=
  match frameTopN f n with
  | .ok r => r
  | .error _ => []

/-- Value of column `c` in a row laid out by header `hdr`; NaN if absent. -/
def colValue (hdr : List String) (row : List Cell) (c : String) : Cell :=
  match hdr.indexOf? c with
  | some i => row.getD i Cell.na
  | none => Cell.na

/-- `pd.concat([a, b], ignore_index=True)` (src/main.py line 122): with
equal headers it is plain row concatenation; with differing headers the
columns are aligned by name in order of first appearance and missing
entries become NaN. No row is deduplicated in either case. -/
def concatFrames (a b : Frame) : Frame :=
  if a.header = b.header then ⟨a.header, a.rows ++ b.rows⟩
  else
    let header := a.header ++ b.header.filter (fun c => !(a.header.contains c))
    ⟨header,
      a.rows.map (fun row => header.map (colValue a.header row)) ++
        b.rows.map (fun row => header.map (colValue b.header row))⟩

/-- Observable steps of `main` after both loads succeed (src/main.py
lines 125-161). -/
inductive Step where
  | exportMergedOk
  | exportMergedFailed
  | reportYear (y : Nat)
  | genderReport
  | exportGroupedOk
  | exportGroupedFailed
deriving DecidableEq

/-- Failure raised by a `to_csv` write, as caught at src/main.py
lines 128-131 and 158-161. -/
inductive WriteError where
  | permissionDenied
  | otherFailure
deriving DecidableEq

/-- The environment outcomes of one run of `main`: what each
`load_csv_file` call produces (an error makes the process exit with
status 1) and whether each `to_csv` write throws. -/
structure Env where
  loadA : Except LoadError Frame
  loadB : Except LoadError Frame
  writeMerged : Except WriteError Unit
  writeGrouped : Except WriteError Unit

/-- `main` (src/main.py lines 115-165) reduced to its exit code and the
sequence of steps performed after the loads: the loads are fail-fast (a
load error exits the process with status 1 before anything else runs); the
merged export's failure is caught and logged (lines 125-131); the two
per-year reports always run (`process_top_names` swallows its errors); the
gender report block is wrapped in try/except (lines 138-151); the grouped
export's failure is caught and logged (lines 153-161); the run then ends
and the process exits with status 0. -/
def mainRun (e : Env) : Nat × List Step :=
  match e.loadA with
  | .error _ => (1, [])
  | .ok _ =>
    match e.loadB with
    | .error _ => (1, [])
    | .ok _ =>
      let s1 := match e.writeMerged with
        | .ok _ => Step.exportMergedOk
        | .error _ => Step.exportMergedFailed
      let s4 := match e.writeGrouped with
        | .ok _ => Step.exportGroupedOk
        | .error _ => Step.exportGroupedFailed
      (0, [s1, Step.reportYear 2003, Step.reportYear 2004, Step.genderReport, s4])

/-- A canonical loaded dataset with one record, used to exercise the
export/reload pipeline. -/
def c5Frame : Frame :=
  ⟨["Sexe", "Prenom", "Nombre"], [[Cell.str "M", Cell.str "Jean", Cell.int 5]]⟩

/-- An input frame whose header has an extra column `annee` and whose data
holds a negative count and a missing name. -/
def c6Frame : Frame :=
  ⟨["sexe", "prenom", "nombre", "annee"],
   [[Cell.int 1, Cell.str "Jean", Cell.int (-5), Cell.int 2003],
    [Cell.int 2, Cell.na, Cell.int 7, Cell.int 2003]]⟩

/-- What `load_csv_file` produces from `c6Frame`: the three source columns
renamed, the extra column kept, the data passed through unvalidated. -/
def c6Loaded : Frame :=
  ⟨["Sexe", "Prenom", "Nombre", "annee"],
   [[Cell.str "M", Cell.str "Jean", Cell.int (-5), Cell.int 2003],
    [Cell.str "F", Cell.na, Cell.int 7, Cell.int 2003]]⟩

/-- A three-record dataset with two distinct names. -/
def d2 : List Record :=
  [⟨some "M", "Jean", 5⟩, ⟨some "F", "Marie", 7⟩, ⟨some "M", "Jean", 3⟩]

/-- A two-record dataset and `dp2`, the same records in swapped order. -/
def dp1 : List Record := [⟨some "M", "Jean", 5⟩, ⟨some "F", "Marie", 7⟩]

/-- The records of `dp1` in the opposite order. -/
def dp2 : List Record := [⟨some "F", "Marie", 7⟩, ⟨some "M", "Jean", 5⟩]

/-- `df.groupby("Prenom")["Nombre"].sum()` over a loaded frame (src/main.py
line 155), as a key-sorted list of (name, total) pairs: the name and count
cells are read off each row, rows whose name is NaN are dropped by groupby
(default `dropna=True`), and counts are summed per remaining name. When a
used column is absent the surrounding code raises instead; that path is
outside this definition, which then yields the empty table. -/
def frameGroupSum (f : Frame) : List (Cell × Int) :=
  match f.header.indexOf? "Prenom", f.header.indexOf? "Nombre" with
  | some pi, some ni =>
    let pairs := f.rows.map (fun row => (row.getD pi Cell.na, row.getD ni Cell.na))
    let kept := pairs.filter (fun p => decide (p.1 ≠ Cell.na))
    groupSumPairs (fun a b => cellLe a b = true)
      (kept.map (fun p => (p.1, cellInt p.2)))
  | _, _ => []

/-- The sum of the `Nombre` column over all rows of a frame: the total
count of all records of the dataset. -/
def frameTotal (f : Frame) : Int :=
  match f.header.indexOf? "Nombre" with
  | some ni => (f.rows.map (fun row => cellInt (row.getD ni Cell.na))).sum
  | none => 0

/-- The lines of an input file whose second record has an empty (missing)
name: `sexe,prenom,nombre` / `1,,7` / `1,Jean,5`. -/
def c1Lines : List (List Char) :=
  ["sexe,prenom,nombre", "1,,7", "1,Jean,5"].map String.toList

/-- The dataset the loader produces from `c1Lines`: the NaN name is kept. -/
def c1Loaded : Frame :=
  ⟨["Sexe", "Prenom", "Nombre"],
   [[Cell.str "M", Cell.na, Cell.int 7],
    [Cell.str "M", Cell.str "Jean", Cell.int 5]]⟩

/-- C3: the loader's sex decoding maps source code 1 to "M" and code 2 to
"F", and every other cell value to NaN; being a total function, it raises
no error on any record. -/
theorem mapSexCell_decodes :
    mapSexCell (Cell.int 1) = Cell.str "M" ∧
    mapSexCell (Cell.int 2) = Cell.str "F" ∧
    ∀ c : Cell, c ≠ Cell.int 1 → c ≠ Cell.int 2 → mapSexCell c = Cell.na := by
  refine ⟨rfl, rfl, ?_⟩
  intro c h1 h2
  cases c with
  | int i =>
    have hi1 : i ≠ 1 := by intro h; subst h; exact h1 rfl
    have hi2 : i ≠ 2 := by intro h; subst h; exact h2 rfl
    simp [mapSexCell, hi1, hi2]
  | str s => rfl
  | na => rfl

/-- Witness for `mapSexCell_decodes` at the unmapped code 3. -/
theorem mapSexCell_decodes_witness :
    Cell.int 3 ≠ Cell.int 1 ∧ Cell.int 3 ≠ Cell.int 2 ∧
      mapSexCell (Cell.int 3) = Cell.na :=
  ⟨by decide, by decide,
    mapSexCell_decodes.2.2 (Cell.int 3) (by decide) (by decide)⟩

/-- C4: when the parsed header lacks required source columns, the loader
fails with a schema error carrying the `missing_columns` list, which names
every absent required column, and returns no frame. -/
theorem loadTransform_schemaError (df : Frame)
    (h : missing_columns df.header ≠ []) :
    loadTransform df =
      Except.error (LoadError.schemaError (missing_columns df.header)) ∧
    ∀ c, c ∈ required_columns.map Prod.fst → c ∉ df.header →
      c ∈ missing_columns df.header := by
  constructor
  · have hne : (missing_columns df.header).isEmpty = false := by
      cases hm : missing_columns df.header with
      | nil => exact absurd hm h
      | cons a t => rfl
    unfold loadTransform
    simp [hne]
  · intro c hc hnot
    refine List.mem_filter.mpr ⟨hc, ?_⟩
    simpa using hnot

/-- Witness for `loadTransform_schemaError`: a file with only `prenom` is
rejected with both `sexe` and `nombre` named, not just the first. -/
theorem loadTransform_schemaError_witness :
    missing_columns ["prenom"] ≠ [] ∧
    loadTransform ⟨["prenom"], [[Cell.str "Jean"]]⟩ =
      Except.error (LoadError.schemaError ["sexe", "nombre"]) := by
  refine ⟨by decide, ?_⟩
  have h := (loadTransform_schemaError ⟨["prenom"], [[Cell.str "Jean"]]⟩
    (by decide)).1
  rw [h]
  rfl

/-- C7: merging two loaded datasets with equal schemas concatenates them:
the merged header is the shared header and the merged rows are the first
dataset's rows, in order, followed by the second's, with no deduplication. -/
theorem concatFrames_append (a b : Frame) (h : a.header = b.header) :
    (concatFrames a b).header = a.header ∧
    (concatFrames a b).rows = a.rows ++ b.rows := by
  unfold concatFrames
  rw [if_pos h]
  exact ⟨rfl, rfl⟩

/-- Witness for `concatFrames_append`, with a record occurring in both
inputs and surviving twice in the merge. -/
theorem concatFrames_append_witness :
    (concatFrames ⟨["Sexe", "Prenom", "Nombre"], [[Cell.str "M", Cell.str "Jean", Cell.int 5]]⟩
        ⟨["Sexe", "Prenom", "Nombre"],
          [[Cell.str "M", Cell.str "Jean", Cell.int 5], [Cell.str "F", Cell.str "Marie", Cell.int 7]]⟩).rows =
      [[Cell.str "M", Cell.str "Jean", Cell.int 5],
       [Cell.str "M", Cell.str "Jean", Cell.int 5],
       [Cell.str "F", Cell.str "Marie", Cell.int 7]] := by
  rw [(concatFrames_append
    ⟨["Sexe", "Prenom", "Nombre"], [[Cell.str "M", Cell.str "Jean", Cell.int 5]]⟩
    ⟨["Sexe", "Prenom", "Nombre"],
      [[Cell.str "M", Cell.str "Jean", Cell.int 5], [Cell.str "F", Cell.str "Marie", Cell.int 7]]⟩
    rfl).2]
  rfl

/-- C10: the per-year report `process_top_names` catches every internal
error of the ranking computation and returns the empty result instead of
propagating it. -/
theorem process_top_names_swallows (f : Frame) (n : Nat) (e : PdError)
    (h : frameTopN f n = Except.error e) :
    process_top_names f n = [] := by
  unfold process_top_names
  rw [h]

/-- Witness for `process_top_names_swallows`: a frame without the `Prenom`
column (KeyError) and a frame with a non-numeric `Nombre` column
(TypeError) both yield the empty result. -/
theorem process_top_names_swallows_witness :
    frameTopN ⟨["Sexe"], []⟩ 10 = Except.error PdError.keyError ∧
    process_top_names ⟨["Sexe"], []⟩ 10 = [] ∧
    frameTopN ⟨["Prenom", "Nombre"], [[Cell.str "Jean", Cell.str "x"]]⟩ 10 =
      Except.error PdError.typeError ∧
    process_top_names ⟨["Prenom", "Nombre"], [[Cell.str "Jean", Cell.str "x"]]⟩ 10 = [] :=
  ⟨rfl,
   process_top_names_swallows ⟨["Sexe"], []⟩ 10 PdError.keyError rfl,
   rfl,
   process_top_names_swallows ⟨["Prenom", "Nombre"], [[Cell.str "Jean", Cell.str "x"]]⟩
     10 PdError.typeError rfl⟩

/-- C8: when both loads succeed and an export write fails, the failure is
caught (it shows up as a failed-export step, not an exception): the run
still performs both per-year reports, the gender report and both export
attempts, and the process exits with status 0. -/
theorem mainRun_export_nonfatal (e : Env) (a b : Frame)
    (ha : e.loadA = Except.ok a) (hb : e.loadB = Except.ok b)
    (hw : (∃ w, e.writeMerged = Except.error w) ∨
      (∃ w, e.writeGrouped = Except.error w)) :
    (mainRun e).1 = 0 ∧
    Step.reportYear 2003 ∈ (mainRun e).2 ∧
    Step.reportYear 2004 ∈ (mainRun e).2 ∧
    Step.genderReport ∈ (mainRun e).2 ∧
    (Step.exportMergedOk ∈ (mainRun e).2 ∨ Step.exportMergedFailed ∈ (mainRun e).2) ∧
    (Step.exportGroupedOk ∈ (mainRun e).2 ∨ Step.exportGroupedFailed ∈ (mainRun e).2) ∧
    (Step.exportMergedFailed ∈ (mainRun e).2 ∨ Step.exportGroupedFailed ∈ (mainRun e).2) := by
  rcases hwm : e.writeMerged with w1 | u <;> rcases hwg : e.writeGrouped with w2 | v
  · simp [mainRun, ha, hb, hwm, hwg]
  · simp [mainRun, ha, hb, hwm, hwg]
  · simp [mainRun, ha, hb, hwm, hwg]
  · exfalso
    rcases hw with ⟨w, hww⟩ | ⟨w, hww⟩
    · rw [hwm] at hww; cases hww
    · rw [hwg] at hww; cases hww

/-- Witness for `mainRun_export_nonfatal`: both loads succeed, the merged
export hits a permission error, and the run still exits 0 having performed
every remaining step. -/
theorem mainRun_export_nonfatal_witness :
    (mainRun ⟨Except.ok c5Frame, Except.ok c5Frame,
        Except.error WriteError.permissionDenied, Except.ok ()⟩).1 = 0 ∧
    Step.reportYear 2003 ∈ (mainRun ⟨Except.ok c5Frame, Except.ok c5Frame,
        Except.error WriteError.permissionDenied, Except.ok ()⟩).2 ∧
    Step.reportYear 2004 ∈ (mainRun ⟨Except.ok c5Frame, Except.ok c5Frame,
        Except.error WriteError.permissionDenied, Except.ok ()⟩).2 := by
  have h := mainRun_export_nonfatal
    ⟨Except.ok c5Frame, Except.ok c5Frame,
      Except.error WriteError.permissionDenied, Except.ok ()⟩
    c5Frame c5Frame rfl rfl (Or.inl ⟨WriteError.permissionDenied, rfl⟩)
  exact ⟨h.1, h.2.1, h.2.2.1⟩

/-- C6 counterexample: `c6Frame` loads successfully, yet the loaded frame
keeps the extra column `annee` (so the column set is not exactly
{Sexe, Prenom, Nombre}), holds the negative count -5, and holds a missing
name — the invariant stated by the claim does not hold. -/
theorem loadTransform_invariant_counterexample :
    loadTransform c6Frame = Except.ok c6Loaded ∧
    c6Loaded.header ≠ ["Sexe", "Prenom", "Nombre"] ∧
    "annee" ∈ c6Loaded.header ∧
    (c6Loaded.rows.getD 0 []).getD 2 Cell.na = Cell.int (-5) ∧
    (c6Loaded.rows.getD 1 []).getD 1 Cell.na = Cell.na :=
  ⟨rfl, by decide, by decide, by decide, by decide⟩

/-- C6 amended: a successful load renames every column through the
required-columns mapping — so the canonical columns Sexe, Prenom and Nombre
are always present — but any extra input column is preserved and the Name
and Count data pass through unvalidated. -/
theorem loadTransform_ok_header (df res : Frame)
    (h : loadTransform df = Except.ok res) :
    res.header = df.header.map renameCol ∧
    "Sexe" ∈ res.header ∧ "Prenom" ∈ res.header ∧ "Nombre" ∈ res.header := by
  unfold loadTransform at h
  by_cases hm : (missing_columns df.header).isEmpty
  · rw [if_pos hm] at h
    have hres : res = ⟨df.header.map renameCol,
        df.rows.map (applyAt ((df.header.map renameCol).indexOf "Sexe") mapSexCell)⟩ := by
      cases h
      rfl
    have hei : missing_columns df.header = [] := List.isEmpty_iff.mp hm
    have hall : ∀ c ∈ required_columns.map Prod.fst, df.header.contains c := by
      intro c hc
      by_contra hnc
      have : c ∈ missing_columns df.header :=
        List.mem_filter.mpr ⟨hc, by simpa using hnc⟩
      rw [hei] at this
      cases this
    have hsexe : "sexe" ∈ df.header := by
      simpa using hall "sexe" (by decide)
    have hprenom : "prenom" ∈ df.header := by
      simpa using hall "prenom" (by decide)
    have hnombre : "nombre" ∈ df.header := by
      simpa using hall "nombre" (by decide)
    subst hres
    refine ⟨rfl, ?_, ?_, ?_⟩
    · exact List.mem_map.mpr ⟨"sexe", hsexe, by decide⟩
    · exact List.mem_map.mpr ⟨"prenom", hprenom, by decide⟩
    · exact List.mem_map.mpr ⟨"nombre", hnombre, by decide⟩
  · rw [if_neg hm] at h
    cases h

/-- Witness for `loadTransform_ok_header` at `c6Frame`. -/
theorem loadTransform_ok_header_witness :
    c6Loaded.header = c6Frame.header.map renameCol ∧
    "Sexe" ∈ c6Loaded.header ∧ "Prenom" ∈ c6Loaded.header ∧
      "Nombre" ∈ c6Loaded.header :=
  loadTransform_ok_header c6Frame c6Loaded rfl

section AggregationLemmas

variable {α : Type} [DecidableEq α]

/-- Splitting one pair off a grouped sum. -/
theorem sumCounts_cons (p : α × Int) (l : List (α × Int)) (k : α) :
    sumCounts (p :: l) k = (if p.1 = k then p.2 else 0) + sumCounts l k := by
  unfold sumCounts
  rw [List.filter_cons]
  by_cases h : p.1 = k
  · simp [h]
  · simp [h]

/-- A sum of indicator values over a list that avoids the key is zero. -/
theorem sum_ite_not_mem (a : α) (v : Int) (ns : List α) (h : a ∉ ns) :
    (ns.map (fun k => if a = k then v else 0)).sum = 0 := by
  induction ns with
  | nil => rfl
  | cons x t ih =>
    have hx : a ≠ x := by
      intro he
      subst he
      exact h (List.mem_cons_self a t)
    have ht : a ∉ t := fun hm => h (List.mem_cons_of_mem x hm)
    simp [hx, ih ht]

/-- Over a duplicate-free key list, a sum of indicator values collapses to
a single membership test. -/
theorem sum_ite_nodup (a : α) (v : Int) (ns : List α) (hnd : ns.Nodup) :
    (ns.map (fun k => if a = k then v else 0)).sum =
      if a ∈ ns then v else 0 := by
  induction ns with
  | nil => rfl
  | cons x t ih =>
    rcases List.nodup_cons.mp hnd with ⟨hx, ht⟩
    by_cases hax : a = x
    · subst hax
      simp [sum_ite_not_mem a v t hx]
    · simp [hax, ih ht]

omit [DecidableEq α] in
/-- Sums of pointwise-added maps split. -/
theorem sum_map_add_split (f g : α → Int) (ns : List α) :
    (ns.map (fun k => f k + g k)).sum = (ns.map f).sum + (ns.map g).sum := by
  induction ns with
  | nil => rfl
  | cons x t ih =>
    simp only [List.map_cons, List.sum_cons, ih]
    ring

/-- Summing the grouped totals over any duplicate-free key list counts
exactly the records whose key belongs to the list. -/
theorem sumCounts_partition (l : List (α × Int)) (ns : List α)
    (hnd : ns.Nodup) :
    (ns.map (fun k => sumCounts l k)).sum =
      ((l.filter (fun p => decide (p.1 ∈ ns))).map Prod.snd).sum := by
  induction l with
  | nil => simp [sumCounts]
  | cons p t ih =>
    have h1 : ns.map (fun k => sumCounts (p :: t) k)
        = ns.map (fun k => (if p.1 = k then p.2 else 0) + sumCounts t k) := by
      apply List.map_congr_left
      intro k _
      exact sumCounts_cons p t k
    rw [h1, sum_map_add_split, sum_ite_nodup p.1 p.2 ns hnd, ih,
      List.filter_cons]
    by_cases hm : p.1 ∈ ns
    · simp [hm]
    · simp [hm]

end AggregationLemmas

instance : IsTotal (α × Int) (fun a b => b.2 ≤ a.2) :=
  ⟨fun a b => Int.le_total b.2 a.2⟩

instance : IsTrans (α × Int) (fun a b => b.2 ≤ a.2) :=
  ⟨fun _ _ _ hab hbc => le_trans hbc hab⟩

/-- Length of an n-largest selection. -/
theorem nlargest_length {α : Type} [DecidableEq α] (n : Nat)
    (s : List (α × Int)) : (nlargest n s).length = min n s.length := by
  unfold nlargest
  rw [List.length_take, List.length_insertionSort]

/-- An n-largest selection is sorted by value, descending. -/
theorem nlargest_sorted {α : Type} [DecidableEq α] (n : Nat)
    (s : List (α × Int)) :
    List.Sorted (fun a b : α × Int => b.2 ≤ a.2) (nlargest n s) := by
  unfold nlargest
  have hs := List.sorted_insertionSort (fun a b : α × Int => b.2 ≤ a.2) s
  exact List.Pairwise.sublist (List.take_sublist n _) hs

/-- A grouped-sum table has one entry per distinct key. -/
theorem groupSumPairs_length {α : Type} [DecidableEq α] (kr : α → α → Prop)
    [DecidableRel kr] (l : List (α × Int)) :
    (groupSumPairs kr l).length = (groupKeys l).length := by
  unfold groupSumPairs
  rw [List.length_map, List.length_insertionSort]

/-- Summing the grouped totals over all distinct keys counts every pair of
the input exactly once. -/
theorem sumCounts_total {α : Type} [DecidableEq α] (l : List (α × Int)) :
    ((groupKeys l).map (fun k => sumCounts l k)).sum = (l.map Prod.snd).sum := by
  have hnd : (groupKeys l).Nodup := List.nodup_dedup _
  have h := sumCounts_partition l (groupKeys l) hnd
  have hfull : l.filter (fun p => decide (p.1 ∈ groupKeys l)) = l := by
    apply List.filter_eq_self.mpr
    intro p hp
    simp only [decide_eq_true_eq, groupKeys, List.mem_dedup]
    exact List.mem_map_of_mem Prod.fst hp
  rw [hfull] at h
  exact h

/-- The grouped-sum table's totals sum to the totals of its input pairs:
sorting the keys permutes the summands only. -/
theorem groupSumPairs_total {α : Type} [DecidableEq α] (kr : α → α → Prop)
    [DecidableRel kr] (l : List (α × Int)) :
    ((groupSumPairs kr l).map Prod.snd).sum = (l.map Prod.snd).sum := by
  unfold groupSumPairs
  rw [List.map_map]
  have hperm : List.Perm
      ((List.insertionSort kr (groupKeys l)).map
        (Prod.snd ∘ fun k => (k, sumCounts l k)))
      ((groupKeys l).map (Prod.snd ∘ fun k => (k, sumCounts l k))) :=
    (List.perm_insertionSort kr (groupKeys l)).map _
  rw [hperm.sum_eq]
  exact sumCounts_total l

/-- C1 counterexample: the loader accepts the file `c1Lines`, whose second
record has an empty name, producing `c1Loaded`; groupby then drops the
NaN-named row, so the grouped totals sum to 5 while the records' counts sum
to 12 — the conservation law fails on this loader-produced dataset. -/
theorem frameGroupSum_counterexample :
    loadFromLines c1Lines = Except.ok c1Loaded ∧
    ((frameGroupSum c1Loaded).map Prod.snd).sum = 5 ∧
    frameTotal c1Loaded = 12 ∧
    ((frameGroupSum c1Loaded).map Prod.snd).sum ≠ frameTotal c1Loaded :=
  ⟨rfl, by decide, by decide, by decide⟩

/-- C1 amended: for every loader-produced dataset in which every record has
a non-missing Name, the grouped sums conserve the total — the grouped
TotalCounts sum to the sum of Count over all records. (Records whose Name
is missing are dropped by groupby, which is what breaks conservation in
general.) -/
theorem frameGroupSum_conservation (f : Frame) (pi ni : Nat)
    (hp : f.header.indexOf? "Prenom" = some pi)
    (hn : f.header.indexOf? "Nombre" = some ni)
    (hnames : ∀ row ∈ f.rows, row.getD pi Cell.na ≠ Cell.na) :
    ((frameGroupSum f).map Prod.snd).sum = frameTotal f := by
  simp only [frameGroupSum, frameTotal, hp, hn]
  have hkept : (f.rows.map
        (fun row => (row.getD pi Cell.na, row.getD ni Cell.na))).filter
      (fun p => decide (p.1 ≠ Cell.na)) =
        f.rows.map (fun row => (row.getD pi Cell.na, row.getD ni Cell.na)) := by
    apply List.filter_eq_self.mpr
    intro p hp'
    rcases List.mem_map.mp hp' with ⟨row, hrow, hrfl⟩
    simp only [decide_eq_true_eq, ← hrfl]
    exact hnames row hrow
  rw [hkept, groupSumPairs_total, List.map_map, List.map_map]
  rfl

/-- Witness for `frameGroupSum_conservation` at the one-record dataset
`c5Frame`, whose name is present. -/
theorem frameGroupSum_conservation_witness :
    ((frameGroupSum c5Frame).map Prod.snd).sum = frameTotal c5Frame ∧
    frameTotal c5Frame = 5 :=
  ⟨frameGroupSum_conservation c5Frame 1 2 rfl rfl (by decide), by decide⟩

/-- C2: `topN` returns at most `n` entries, sorted by TotalCount in
descending order; when the dataset has fewer than `n` distinct names it
returns exactly one entry per distinct name; and on the empty dataset it
returns the empty result instead of failing. -/
theorem topN_shape (d : List Record) (n : Nat) :
    (topN d n).length ≤ n ∧
    List.Sorted (fun a b : String × Int => b.2 ≤ a.2) (topN d n) ∧
    ((distinctNames d).length < n →
      (topN d n).length = (distinctNames d).length) ∧
    topN [] n = [] := by
  refine ⟨?_, ?_, ?_, ?_⟩
  · unfold topN topNPairs
    rw [nlargest_length]
    exact Nat.min_le_left _ _
  · unfold topN topNPairs
    exact nlargest_sorted n _
  · intro h
    unfold topN topNPairs
    rw [nlargest_length, groupSumPairs_length]
    exact Nat.min_eq_right (Nat.le_of_lt h)
  · simp [topN, topNPairs, nlargest, groupSumPairs, groupKeys, toPairs]

/-- Witness for `topN_shape`: a dataset with two distinct names over three
records, asked for its top five. -/
theorem topN_shape_witness :
    (distinctNames d2).length < 5 ∧
    (topN d2 5).length = (distinctNames d2).length ∧
    (topN d2 5).length ≤ 5 :=
  ⟨by decide, (topN_shape d2 5).2.2.1 (by decide), (topN_shape d2 5).1⟩

/-- C9: the grouped sums are order-independent — permuting the records of a
dataset changes neither any name's TotalCount nor the set of grouped
names. -/
theorem groupSum_perm (d d' : List Record) (h : d.Perm d') :
    (∀ nm, groupSum d nm = groupSum d' nm) ∧
    (∀ nm, nm ∈ distinctNames d ↔ nm ∈ distinctNames d') := by
  have hp : (toPairs d).Perm (toPairs d') := h.map _
  constructor
  · intro nm
    unfold groupSum sumCounts
    exact ((hp.filter _).map Prod.snd).sum_eq
  · intro nm
    unfold distinctNames groupKeys
    rw [List.mem_dedup, List.mem_dedup]
    exact (hp.map Prod.fst).mem_iff

/-- Witness for `groupSum_perm` on a two-record dataset and its reversal. -/
theorem groupSum_perm_witness :
    groupSum dp1 "Jean" = groupSum dp2 "Jean" ∧
    ("Marie" ∈ distinctNames dp1 ↔ "Marie" ∈ distinctNames dp2) :=
  ⟨(groupSum_perm dp1 dp2 (by decide)).1 "Jean",
   (groupSum_perm dp1 dp2 (by decide)).2 "Marie"⟩

/-- A line without the separator is a single field. -/
theorem splitOnChar_not_mem (sep : Char) (l : List Char) (h : sep ∉ l) :
    splitOnChar sep l = [l] := by
  induction l with
  | nil => rfl
  | cons c cs ih =>
    have hc : ¬(c = sep) := by
      intro he
      subst he
      exact h (List.mem_cons_self c cs)
    have ht : sep ∉ cs := fun hm => h (List.mem_cons_of_mem c hm)
    unfold splitOnChar
    rw [if_neg hc, ih ht]
    rfl

/-- A frame whose header misses required columns makes the load transform
fail with the schema error listing them. -/
theorem loadTransform_missing (df : Frame)
    (h : missing_columns df.header ≠ []) :
    loadTransform df =
      Except.error (LoadError.schemaError (missing_columns df.header)) := by
  have hne : (missing_columns df.header).isEmpty = false := by
    cases hm : missing_columns df.header with
    | nil => exact absurd hm h
    | cons a t => rfl
  unfold loadTransform
  simp [hne]

/-- Loading a file whose lines are comma-free parses every line as one
single field, so when the resulting one-column header misses the required
columns the load fails with the schema error naming them. -/
theorem loadFromLines_comma_free (hd : List Char) (rest : List (List Char))
    (hhd : ',' ∉ hd) (hrest : ∀ line ∈ rest, ',' ∉ line)
    (hmiss : missing_columns [String.mk hd] ≠ []) :
    loadFromLines (hd :: rest) =
      Except.error (LoadError.schemaError (missing_columns [String.mk hd])) := by
  have hsplit : splitOnChar ',' hd = [hd] := splitOnChar_not_mem ',' hd hhd
  have hany : (rest.map (splitOnChar ',')).any
      (fun r => 1 < r.length) = false := by
    apply List.any_eq_false.mpr
    intro r hr
    rcases List.mem_map.mp hr with ⟨line, hline, hrfl⟩
    rw [← hrfl, splitOnChar_not_mem ',' line (hrest line hline)]
    simp
  unfold loadFromLines
  simp only [parseCSV, hsplit, List.map_cons, List.map_nil,
    List.length_cons, List.length_nil, Nat.zero_add, hany,
    Bool.false_eq_true, if_false]
  exact loadTransform_missing ⟨[String.mk hd], _⟩ hmiss

/-- C5 corrected: reloading an exported dataset does not reproduce it — the
loader always parses with the comma separator (whatever separator argument
is passed) while the exporter writes semicolons, so every comma-free
exported line is one single field, the parsed header is the single column
"Sexe;Prenom;Nombre", and reloading fails with a schema error naming all
three lowercase source columns instead of producing any dataset. -/
theorem export_reload_schemaError (f : Frame)
    (hh : f.header = ["Sexe", "Prenom", "Nombre"])
    (hc : ∀ line ∈ exportLines f, ',' ∉ line) :
    loadFromLines (exportLines f) =
      Except.error (LoadError.schemaError ["sexe", "prenom", "nombre"]) := by
  have hhead : exportLines f = ("Sexe;Prenom;Nombre".toList) ::
      f.rows.map (fun row => joinSep ';' (row.map cellRender)) := by
    unfold exportLines
    rw [hh]
    rfl
  rw [hhead] at hc ⊢
  have hres := loadFromLines_comma_free ("Sexe;Prenom;Nombre".toList)
    (f.rows.map (fun row => joinSep ';' (row.map cellRender)))
    (by decide)
    (fun line hl => hc line (List.mem_cons_of_mem _ hl))
    (by decide)
  rw [hres]
  rfl

/-- C5 counterexample: exporting the concrete one-record dataset `c5Frame`
and reloading the written file yields no dataset at all — the loader stops
with a schema error — so the multiset of (Sex, Name, Count) triples is not
reproduced. -/
theorem export_reload_counterexample :
    (loadFromLines (exportLines c5Frame)).isOk = false ∧
    loadFromLines (exportLines c5Frame) =
      Except.error (LoadError.schemaError ["sexe", "prenom", "nombre"]) :=
  ⟨rfl, rfl⟩

/-- Witness for `export_reload_schemaError` at the dataset `c5Frame`. -/
theorem export_reload_schemaError_witness :
    c5Frame.header = ["Sexe", "Prenom", "Nombre"] ∧
    (∀ line ∈ exportLines c5Frame, ',' ∉ line) ∧
    loadFromLines (exportLines c5Frame) =
      Except.error (LoadError.schemaError ["sexe", "prenom", "nombre"]) :=
  ⟨rfl, by decide, export_reload_schemaError c5Frame rfl (by decide)⟩
